import Mathlib

/-!
Verification development for the benchmark orchestrator `runme.py` of the
tuithings repository.  The Python source is shallowly embedded:

* metric extractors (`parse_2d_output` .. `parse_net_client_output`) become
  pure Lean functions over strings; Python's `re.search` is embedded by a
  small token matcher restricted to exactly the pattern shapes the source
  uses (literal text, `(\d+)`, `([\d.]+)`, non-capturing `\d+`, and a single
  unescaped `.`).  For these shapes greedy matching never needs to backtrack,
  because every character class in them is disjoint from the character that
  follows it in the pattern, so deterministic maximal munch is exact.
* Python `float(...)` applied to a `[\d.]+` capture can raise `ValueError`
  (e.g. on "1.2.3"); extractors therefore return `Except`.  Float values are
  modelled as exact rationals (the source does no arithmetic on them).
* the orchestrator `main` becomes a function over an environment describing
  each child probe's outcome; the background network server is a handle with
  a liveness state, and `Popen.wait(timeout=5)` is modelled as raising
  `TimeoutExpired` exactly when the process is still alive at the deadline.
-/

/-- Exceptions observable in the embedded fragment of the source:
`float()` on a bad literal and bad `:.2f` formatting raise `ValueError`;
`Popen.wait(timeout=...)` raises `TimeoutExpired`. -/
inductive PyExn where
  | valueError
  | timeoutExpired
deriving DecidableEq

/-- A metric value: `int(...)` results or `float(...)` results.  Python
floats are modelled as exact rationals; the source never computes with
them, it only stores and formats them. -/
inductive MValue where
  | int (n : Int)
  | float (q : ℚ)
deriving DecidableEq

/-- The Metrics Table `all_performance_data`: an insertion-ordered mapping,
modelled as an association list, exactly like a Python dict. -/
abbrev Dict := List (String × MValue)

/-- Keys of a dict, in insertion order. -/
def dkeys (d : Dict) : List String := d.map Prod.fst

/-- Python `d[k]` read / `k in d` support. -/
def dlookup : Dict → String → Option MValue
  | [], _ => none
  | (k', v) :: rest, k => if k' = k then some v else dlookup rest k

/-- Python `k in d`. -/
def dictContains (d : Dict) (k : String) : Bool := (dlookup d k).isSome

/-- Python `d[k] = v`: overwrite in place keeps the original position,
a fresh key is appended at the end. -/
def dictSet (d : Dict) (k : String) (v : MValue) : Dict :=
  if dictContains d k then
    d.map (fun p => if p.1 = k then (k, v) else p)
  else
    d ++ [(k, v)]

/-- Python `d.update(m)`: set every entry of `m` into `d`, in order. -/
def dictUpdate (d m : Dict) : Dict :=
  m.foldl (fun acc p => dictSet acc p.1 p.2) d

/-- Boolean prefix test on character lists. -/
def isPrefixL : List Char → List Char → Bool
  | [], _ => true
  | _ :: _, [] => false
  | a :: as, b :: bs => if a = b then isPrefixL as bs else false

/-- Substring search over character lists (Python `needle in hay`). -/
def containsSubAux (n : List Char) : List Char → Bool
  | [] => isPrefixL n []
  | c :: rest => isPrefixL n (c :: rest) || containsSubAux n rest

/-- Python `needle in hay` on strings. -/
def containsSub (needle hay : String) : Bool :=
  containsSubAux needle.data hay.data

/-- Python `output.split(chr(10))`: split on newline, keeping empty pieces. -/
def splitNlAux : List Char → List (List Char)
  | [] => [[]]
  | c :: cs =>
    if c = '\n' then [] :: splitNlAux cs
    else
      match splitNlAux cs with
      | [] => [[c]]
      | l :: ls => (c :: l) :: ls

/-- Python `output.split` on newline, on strings. -/
def pySplitLines (s : String) : List String := (splitNlAux s.data).map String.mk

/-- Value of a digit string (arguments are decimal digits). -/
def digitsToNat (cs : List Char) : Nat :=
  cs.foldl (fun a c => a * 10 + (c.toNat - '0'.toNat)) 0

/-- Python `int(...)` applied to a `(\d+)` capture: always succeeds. -/
def pyInt (s : String) : Int := Int.ofNat (digitsToNat s.data)

/-- Characters matched by the class `[\d.]`. -/
def numChar (c : Char) : Bool := c.isDigit || c = '.'

/-- Python `float(...)` restricted to strings over `[\d.]` (all that the
captures can produce): it succeeds iff there is at most one dot and at
least one digit; the value is the exact decimal rational. -/
def pyFloat (s : String) : Option ℚ :=
  let cs := s.data
  let ip := cs.takeWhile Char.isDigit
  let rest := cs.dropWhile Char.isDigit
  match rest with
  | [] => if ip = [] then none else some (mkRat (Int.ofNat (digitsToNat ip)) 1)
  | c :: fp =>
    if c = '.' ∧ fp.all Char.isDigit ∧ (ip ≠ [] ∨ fp ≠ []) then
      some (mkRat (Int.ofNat (digitsToNat ip * 10 ^ fp.length + digitsToNat fp)) (10 ^ fp.length))
    else none

/-- Tokens of the regular-expression fragment the source uses. -/
inductive RTok where
  | lit (s : String)   -- literal text
  | grpDigits          -- capturing (\d+)
  | grpNum             -- capturing ([\d.]+)
  | digits             -- non-capturing \d+
  | anyChar            -- unescaped ., any character but newline

/-- Match a token list against a prefix of `cs`, returning captures.
Greedy maximal munch; exact for the source's patterns because each
greedy class is disjoint from the next pattern character. -/
def matchToks : List RTok → List Char → Option (List String)
  | [], _ => some []
  | .lit s :: ts, cs =>
    if isPrefixL s.data cs then matchToks ts (cs.drop s.data.length) else none
  | .grpDigits :: ts, cs =>
    let g := cs.takeWhile Char.isDigit
    if g = [] then none
    else
      match matchToks ts (cs.dropWhile Char.isDigit) with
      | some gs => some (String.mk g :: gs)
      | none => none
  | .grpNum :: ts, cs =>
    let g := cs.takeWhile numChar
    if g = [] then none
    else
      match matchToks ts (cs.dropWhile numChar) with
      | some gs => some (String.mk g :: gs)
      | none => none
  | .digits :: ts, cs =>
    if cs.takeWhile Char.isDigit = [] then none
    else matchToks ts (cs.dropWhile Char.isDigit)
  | .anyChar :: ts, cs =>
    match cs with
    | [] => none
    | c :: rest => if c = '\n' then none else matchToks ts rest

/-- `re.search` scan: try the pattern at each start position, leftmost
match wins. -/
def searchAux (t : List RTok) : List Char → Option (List String)
  | [] => matchToks t []
  | c :: rest =>
    match matchToks t (c :: rest) with
    | some gs => some gs
    | none => searchAux t rest

/-- Python `re.search(pattern, s)`, returning the capture groups. -/
def rsearch (t : List RTok) (s : String) : Option (List String) :=
  searchAux t s.data

/-- One `if substr in line: re.search(...)` arm of a line-oriented
extractor: the substrings guarding the arm, the pattern, the metric key it
writes, and whether the capture goes through `int` (else `float`). -/
structure Rule where
  substrs : List String
  pat : List RTok
  key : String
  isInt : Bool

/-- The `if`/`elif` chain: first rule whose guard substrings all occur in
the line. -/
def firstMatching : List Rule → String → Option Rule
  | [], _ => none
  | r :: rs, line =>
    if r.substrs.all (fun n => containsSub n line) then some r
    else firstMatching rs line

/-- Processing of one line by an extractor: guard, search, convert, store.
A failing `float(...)` aborts the whole extractor with `ValueError`, as in
the source. -/
def ruleStep (rules : List Rule) (stats : Dict) (line : String) : Except PyExn Dict :=
  match firstMatching rules line with
  | none => .ok stats
  | some r =>
    match rsearch r.pat line with
    | some (g :: []) =>
      if r.isInt then .ok (dictSet stats r.key (.int (pyInt g)))
      else
        match pyFloat g with
        | some q => .ok (dictSet stats r.key (.float q))
        | none => .error .valueError
    | _ => .ok stats

/-- Left fold of an extractor step over the lines, stopping at the first
raised exception. -/
def foldE (step : Dict → String → Except PyExn Dict) : Dict → List String → Except PyExn Dict
  | s, [] => .ok s
  | s, l :: ls =>
    match step s l with
    | .ok s' => foldE step s' ls
    | .error e => .error e

/-- An extractor applied to a list of lines, starting from an empty dict. -/
def lineParseL (rules : List Rule) (ls : List String) : Except PyExn Dict :=
  foldE (ruleStep rules) [] ls

/-- An extractor applied to raw stdout text. -/
def lineParse (rules : List Rule) (output : String) : Except PyExn Dict :=
  lineParseL rules (pySplitLines output)

/-- Rules of `parse_2d_output`. -/
def rules2d : List Rule :=
  [ { substrs := ["Total Sprites Generated:"],
      pat := [.lit "Total Sprites Generated: ", .grpDigits],
      key := "2D Total Sprites", isInt := true },
    { substrs := ["Lowest FPS:"],
      pat := [.lit "Lowest FPS: ", .grpNum],
      key := "2D Lowest FPS", isInt := false },
    { substrs := ["Highest FPS:"],
      pat := [.lit "Highest FPS: ", .grpNum],
      key := "2D Highest FPS", isInt := false },
    { substrs := ["Average FPS:"],
      pat := [.lit "Average FPS: ", .grpNum],
      key := "2D Average FPS", isInt := false } ]

/-- Rules of `parse_3d_output`. -/
def rules3d : List Rule :=
  [ { substrs := ["Total Cubes Generated:"],
      pat := [.lit "Total Cubes Generated: ", .grpDigits],
      key := "3D Total Cubes", isInt := true },
    { substrs := ["Lowest FPS:"],
      pat := [.lit "Lowest FPS: ", .grpNum],
      key := "3D Lowest FPS", isInt := false },
    { substrs := ["Highest FPS:"],
      pat := [.lit "Highest FPS: ", .grpNum],
      key := "3D Highest FPS", isInt := false },
    { substrs := ["Average FPS:"],
      pat := [.lit "Average FPS: ", .grpNum],
      key := "3D Average FPS", isInt := false } ]

/-- Rules of `parse_cpu_output`. -/
def rulesCpu : List Rule :=
  [ { substrs := ["Total Primes Found:"],
      pat := [.lit "Total Primes Found: ", .grpDigits],
      key := "CPU Primes Found", isInt := true },
    { substrs := ["Time Taken:"],
      pat := [.lit "Time Taken: ", .grpNum, .lit " seconds"],
      key := "CPU Time Taken (s)", isInt := false } ]

/-- Rules of `parse_memory_output`. -/
def rulesMemory : List Rule :=
  [ { substrs := ["Total Allocation Cycles:"],
      pat := [.lit "Total Allocation Cycles: ", .grpDigits],
      key := "Memory Allocation Cycles", isInt := true },
    { substrs := ["Time Taken:"],
      pat := [.lit "Time Taken: ", .grpNum, .lit " seconds"],
      key := "Memory Time Taken (s)", isInt := false } ]

/-- Rules of `parse_file_io_output`. -/
def rulesFio : List Rule :=
  [ { substrs := ["Write Speed:"],
      pat := [.lit "Write Speed: ", .grpNum, .lit " MB/s"],
      key := "File I/O Write Speed (MB/s)", isInt := false },
    { substrs := ["Read Speed:"],
      pat := [.lit "Read Speed: ", .grpNum, .lit " MB/s"],
      key := "File I/O Read Speed (MB/s)", isInt := false } ]

/-- Rules of `parse_simulated_gpu_output`. -/
def rulesSgpu : List Rule :=
  [ { substrs := ["Total Matrix Multiplications"],
      pat := [.lit "Total Matrix Multiplications (size ", .digits, .lit "x",
              .digits, .lit "): ", .grpDigits],
      key := "Simulated GPU Matrix Multiplications", isInt := true },
    { substrs := ["Time Taken:"],
      pat := [.lit "Time Taken: ", .grpNum, .lit " seconds"],
      key := "Simulated GPU Time Taken (s)", isInt := false } ]

/-- Rules of `parse_real_gpu_output` (the first arm requires both
substrings). -/
def rulesRgpu : List Rule :=
  [ { substrs := ["Total Matrix Multiplications", "size"],
      pat := [.lit "Total Matrix Multiplications (size ", .digits, .lit "x",
              .digits, .lit "): ", .grpDigits],
      key := "Real GPU Matrix Multiplications", isInt := true },
    { substrs := ["Time Taken:"],
      pat := [.lit "Time Taken: ", .grpNum, .lit " seconds"],
      key := "Real GPU Time Taken (s)", isInt := false } ]

/-- Rules of `parse_net_client_output`. -/
def rulesNet : List Rule :=
  [ { substrs := ["Send Speed:"],
      pat := [.lit "Send Speed: ", .grpNum, .lit " MB/s"],
      key := "Net Send Speed (MB/s)", isInt := false },
    { substrs := ["Receive Speed:"],
      pat := [.lit "Receive Speed: ", .grpNum, .lit " MB/s"],
      key := "Net Receive Speed (MB/s)", isInt := false } ]

def parse_2d_output (output : String) : Except PyExn Dict := lineParse rules2d output

def parse_3d_output (output : String) : Except PyExn Dict := lineParse rules3d output

/-- `parse_cpu_output` on an explicit line list. -/
def parse_cpu_lines (ls : List String) : Except PyExn Dict := lineParseL rulesCpu ls

def parse_cpu_output (output : String) : Except PyExn Dict :=
  parse_cpu_lines (pySplitLines output)

def parse_memory_output (output : String) : Except PyExn Dict := lineParse rulesMemory output

def parse_file_io_output (output : String) : Except PyExn Dict := lineParse rulesFio output

def parse_simulated_gpu_output (output : String) : Except PyExn Dict := lineParse rulesSgpu output

def parse_real_gpu_output (output : String) : Except PyExn Dict := lineParse rulesRgpu output

def parse_net_client_output (output : String) : Except PyExn Dict := lineParse rulesNet output

/-- Pattern of `parse_mcseedgen_output`: the final dot of
`Generated (\d+) seeds in ([\d.]+) seconds.` is unescaped and matches any
character. -/
def mcPat : List RTok :=
  [.lit "Generated ", .grpDigits, .lit " seeds in ", .grpNum, .lit " seconds", .anyChar]

/-- `parse_mcseedgen_output`: one `re.search` over the whole output text;
`float` on the second capture can raise. -/
def parse_mcseedgen_output (output : String) : Except PyExn Dict :=
  match rsearch mcPat output with
  | some (n :: t :: []) =>
    match pyFloat t with
    | some q => .ok [("MC Seeds Generated", .int (pyInt n)), ("MC Generation Time (s)", .float q)]
    | none => .error .valueError
  | _ => .ok []

/-- Outcome of attempting a blocking probe: the script file is missing,
`subprocess.run` itself raised, or a child process ran and exited with the
given code and captured texts. -/
inductive ProbeOutcome where
  | notFound
  | spawnError (msg : String)
  | ran (code : Int) (out err : String)
deriving DecidableEq

/-- Outcome of attempting to start the background network server:
the script file is missing, `subprocess.Popen` raised, or a process
started.  `respondsToTerm` records whether that process exits within the
5-second `wait` after `terminate()` is sent. -/
inductive BgOutcome where
  | notFound
  | spawnError
  | started (respondsToTerm : Bool)
deriving DecidableEq

/-- The `subprocess.Popen` handle that `run_script_and_capture_output`
returns in background mode. -/
structure PopenHandle where
  respondsToTerm : Bool
deriving DecidableEq

/-- An apostrophe character, used in the not-found message. -/
def sqStr : String := String.mk [Char.ofNat 39]

/-- `run_script_and_capture_output(script, wait=True)`: a missing script
and a spawn exception both come back as a `(False, "", message)` triple;
a process that ran comes back as `(returncode == 0, stdout, stderr)`.
No branch raises. -/
def run_script_and_capture_output (script : String) : ProbeOutcome → Bool × String × String
  | .notFound => (false, "", "Script " ++ sqStr ++ script ++ sqStr ++ " not found.")
  | .spawnError msg => (false, "", msg)
  | .ran code out err => (code == 0, out, err)

/-- `run_script_and_capture_output(script, wait=False)`: a missing script
and a spawn exception both return `(None, None, None)` — no message in the
result; a started process returns `(process, None, None)`. -/
def run_script_and_capture_output_bg (_script : String) :
    BgOutcome → Option PopenHandle × Option String × Option String
  | .notFound => (none, none, none)
  | .spawnError => (none, none, none)
  | .started r => (some ⟨r⟩, none, none)

/-- One blocking-probe phase of `main`: run the script; on success parse
its stdout (which may raise) and merge into the table; on failure log and
continue with the table unchanged. -/
def probePhase (script : String) (extractor : String → Except PyExn Dict)
    (o : ProbeOutcome) (acc : Dict) : Except PyExn Dict :=
  match run_script_and_capture_output script o with
  | (true, out, _) =>
    match extractor out with
    | .ok m => .ok (dictUpdate acc m)
    | .error e => .error e
  | (false, _, _) => .ok acc

def SCRIPT_2D_TEST : String := "2dtest.py"
def SCRIPT_3D_TEST : String := "3dtest.py"
def SCRIPT_MC_SEEDGEN : String := "mcseedgen.py"
def SCRIPT_CPU_TEST : String := "cputest.py"
def SCRIPT_MEMORY_TEST : String := "memorytest.py"
def SCRIPT_FILE_IO_TEST : String := "fileiotest.py"
def SCRIPT_SIMULATED_GPU_TEST : String := "gputest.py"
def SCRIPT_REAL_GPU_TEST : String := "real_gputest.py"
def SCRIPT_NET_SERVER : String := "nettest_server.py"
def SCRIPT_NET_CLIENT : String := "nettest_client.py"

/-- Environment of one orchestrator run: the outcome each child probe
would have. -/
structure Env where
  o2d : ProbeOutcome
  o3d : ProbeOutcome
  oMc : ProbeOutcome
  oCpu : ProbeOutcome
  oMem : ProbeOutcome
  oFio : ProbeOutcome
  oSgpu : ProbeOutcome
  oRgpu : ProbeOutcome
  oServer : BgOutcome
  oClient : ProbeOutcome

/-- The eight blocking probe phases of `main`, in source order. -/
def blockingPhases (env : Env) : Except PyExn Dict :=
  probePhase SCRIPT_2D_TEST parse_2d_output env.o2d [] >>= fun t1 =>
  probePhase SCRIPT_3D_TEST parse_3d_output env.o3d t1 >>= fun t2 =>
  probePhase SCRIPT_MC_SEEDGEN parse_mcseedgen_output env.oMc t2 >>= fun t3 =>
  probePhase SCRIPT_CPU_TEST parse_cpu_output env.oCpu t3 >>= fun t4 =>
  probePhase SCRIPT_MEMORY_TEST parse_memory_output env.oMem t4 >>= fun t5 =>
  probePhase SCRIPT_FILE_IO_TEST parse_file_io_output env.oFio t5 >>= fun t6 =>
  probePhase SCRIPT_SIMULATED_GPU_TEST parse_simulated_gpu_output env.oSgpu t6 >>= fun t7 =>
  probePhase SCRIPT_REAL_GPU_TEST parse_real_gpu_output env.oRgpu t7

/-- Liveness of the background server process. -/
inductive PState where
  | running
  | exited
deriving DecidableEq

/-- Server tracking across the `try`/`finally`: either no process was
started, or a process with its terminate behaviour and liveness. -/
inductive SState where
  | noServer
  | server (respondsToTerm : Bool) (st : PState)
deriving DecidableEq

/-- Whether the background server process is still alive. -/
def serverAlive : SState → Bool
  | .server _ .running => true
  | _ => false

/-- The `try` block of `main`: eight blocking phases, then the network
section.  In the network section's teardown the source calls
`terminate()` then `wait(timeout=5)`; `wait` returns only when the process
has already exited, so the following `if poll() is None: kill()` branch is
unreachable — when the server outlives the 5-second wait, `wait` raises
`TimeoutExpired` instead and the kill line is skipped. -/
def tryBlock (env : Env) : Except PyExn Dict × SState :=
  match blockingPhases env with
  | .error e => (.error e, .noServer)
  | .ok t8 =>
    match (run_script_and_capture_output_bg SCRIPT_NET_SERVER env.oServer).1 with
    | none => (.ok t8, .noServer)
    | some h =>
      match probePhase SCRIPT_NET_CLIENT parse_net_client_output env.oClient t8 with
      | .error e => (.error e, .server h.respondsToTerm .running)
      | .ok t9 =>
        if h.respondsToTerm then (.ok t9, .server h.respondsToTerm .exited)
        else (.error .timeoutExpired, .server h.respondsToTerm .running)

/-- The `finally` block: if a server process exists and is still alive,
`terminate()` then `wait(timeout=5)`; as in the `try` block the
`poll()`-then-`kill()` line is unreachable, so a server that outlives the
wait raises `TimeoutExpired` (replacing any in-flight exception) and stays
alive. -/
def finallyBlock : SState → SState × Option PyExn
  | .noServer => (.noServer, none)
  | .server r .exited => (.server r .exited, none)
  | .server r .running =>
    if r then (.server r .exited, none)
    else (.server r .running, some .timeoutExpired)

/-- Result of one orchestrator run: a normal exit (process exit code 0)
with the printed report, or an uncaught exception (nonzero exit, no
report). -/
inductive RunResult where
  | normal (report : List String)
  | raised (e : PyExn)
deriving DecidableEq

/-- Thirty equals signs, the report frame. -/
def sep30 : String := String.mk (List.replicate 30 '=')

/-- The three header prints of the report. -/
def reportHeader : List String :=
  ["\n" ++ sep30, "  Comprehensive Performance Overview", sep30]

/-- The message printed when the Metrics Table is empty. -/
def noDataMsg : String := "No performance data collected from any scripts."

/-- The closing frame print of the report. -/
def footerLine : String := "\n" ++ sep30

/-- Two-decimal fixed-point display of a rational, modelling Python's
`:.2f` (round half to even; the binary-float rounding of the source is
approximated by exact rational rounding). -/
def round2 (q : ℚ) : Int :=
  let a : Int := 100 * q.num
  let b : Int := Int.ofNat q.den
  let fd := Int.ediv a b
  let r := Int.emod a b
  if 2 * r < b then fd
  else if b < 2 * r then fd + 1
  else if Int.emod fd 2 = 0 then fd else fd + 1

/-- Digits after the decimal point, two places. -/
def pad2 (r : Nat) : String := (if r < 10 then "0" else "") ++ toString r

/-- Render a rational as Python `f-string` `:.2f` output. -/
def fmt2 (q : ℚ) : String :=
  let n := round2 q
  (if n < 0 then "-" else "") ++ toString (n.natAbs / 100) ++ "." ++ pad2 (n.natAbs % 100)

/-- Python `f"{table.get(k, chr(78) chr(47) chr(65))}"` — plain formatting:
a present int renders as its decimal text, a missing key renders as the
fallback text.  (A float under a plain-formatted key never occurs in
tables the orchestrator builds; its `str()` is approximated by `fmt2`.) -/
def getPlain (d : Dict) (k : String) : String :=
  match dlookup d k with
  | some (.int n) => toString n
  | some (.float q) => fmt2 q
  | none => "N/A"

/-- Python `f"{table.get(k, ...):.2f}"`: a present number is formatted to
two decimals; a missing key makes the format specifier apply to the
fallback string, which raises `ValueError`. -/
def get2f (d : Dict) (k : String) : Except PyExn String :=
  match dlookup d k with
  | some (.int n) => .ok (fmt2 (mkRat n 1))
  | some (.float q) => .ok (fmt2 q)
  | none => .error .valueError

def hdr2D : String := "\n--- 2D Pygame Test (Graphics) ---"
def hdr3D : String := "\n--- 3D Ursina Test (Graphics) ---"
def hdrMc : String := "\n--- Minecraft Seed Gen Test (Light CPU) ---"
def hdrCpu : String := "\n--- CPU Performance Test (Heavy CPU) ---"
def hdrMem : String := "\n--- Memory Performance Test ---"
def hdrFio : String := "\n--- File I/O Performance Test ---"
def hdrSgpu : String := "\n--- Simulated GPU Compute Test (CPU-based) ---"
def hdrRgpu : String := "\n--- Actual GPU Compute Test (OpenCL) ---"
def hdrNet : String := "\n--- Network Performance Test (Loopback) ---"

/-- The 2D section of the report (source lines 325-330). -/
def render2D (d : Dict) : Except PyExn (List String) :=
  if dictContains d "2D Total Sprites" then
    match get2f d "2D Lowest FPS", get2f d "2D Highest FPS", get2f d "2D Average FPS" with
    | .ok a, .ok b, .ok c =>
      .ok [hdr2D, "  Total Sprites: " ++ getPlain d "2D Total Sprites",
           "  Lowest FPS: " ++ a, "  Highest FPS: " ++ b, "  Average FPS: " ++ c]
    | .error e, _, _ => .error e
    | _, .error e, _ => .error e
    | _, _, .error e => .error e
  else .ok []

/-- The 3D section of the report. -/
def render3D (d : Dict) : Except PyExn (List String) :=
  if dictContains d "3D Total Cubes" then
    match get2f d "3D Lowest FPS", get2f d "3D Highest FPS", get2f d "3D Average FPS" with
    | .ok a, .ok b, .ok c =>
      .ok [hdr3D, "  Total Cubes: " ++ getPlain d "3D Total Cubes",
           "  Lowest FPS: " ++ a, "  Highest FPS: " ++ b, "  Average FPS: " ++ c]
    | .error e, _, _ => .error e
    | _, .error e, _ => .error e
    | _, _, .error e => .error e
  else .ok []

/-- The Minecraft seed-gen section of the report. -/
def renderMc (d : Dict) : Except PyExn (List String) :=
  if dictContains d "MC Seeds Generated" then
    match get2f d "MC Generation Time (s)" with
    | .ok t =>
      .ok [hdrMc, "  Seeds Generated: " ++ getPlain d "MC Seeds Generated",
           "  Generation Time: " ++ t ++ " seconds"]
    | .error e => .error e
  else .ok []

/-- The CPU section of the report. -/
def renderCpu (d : Dict) : Except PyExn (List String) :=
  if dictContains d "CPU Primes Found" then
    match get2f d "CPU Time Taken (s)" with
    | .ok t =>
      .ok [hdrCpu, "  Primes Found: " ++ getPlain d "CPU Primes Found",
           "  Time Taken: " ++ t ++ " seconds"]
    | .error e => .error e
  else .ok []

/-- The memory section of the report. -/
def renderMem (d : Dict) : Except PyExn (List String) :=
  if dictContains d "Memory Allocation Cycles" then
    match get2f d "Memory Time Taken (s)" with
    | .ok t =>
      .ok [hdrMem, "  Allocation Cycles: " ++ getPlain d "Memory Allocation Cycles",
           "  Time Taken: " ++ t ++ " seconds"]
    | .error e => .error e
  else .ok []

/-- The file-I/O section of the report. -/
def renderFio (d : Dict) : Except PyExn (List String) :=
  if dictContains d "File I/O Write Speed (MB/s)" then
    match get2f d "File I/O Write Speed (MB/s)", get2f d "File I/O Read Speed (MB/s)" with
    | .ok w, .ok r => .ok [hdrFio, "  Write Speed: " ++ w ++ " MB/s", "  Read Speed: " ++ r ++ " MB/s"]
    | .error e, _ => .error e
    | _, .error e => .error e
  else .ok []

/-- The simulated-GPU section of the report. -/
def renderSgpu (d : Dict) : Except PyExn (List String) :=
  if dictContains d "Simulated GPU Matrix Multiplications" then
    match get2f d "Simulated GPU Time Taken (s)" with
    | .ok t =>
      .ok [hdrSgpu, "  Matrix Multiplications: " ++ getPlain d "Simulated GPU Matrix Multiplications",
           "  Time Taken: " ++ t ++ " seconds"]
    | .error e => .error e
  else .ok []

/-- The real-GPU section of the report. -/
def renderRgpu (d : Dict) : Except PyExn (List String) :=
  if dictContains d "Real GPU Matrix Multiplications" then
    match get2f d "Real GPU Time Taken (s)" with
    | .ok t =>
      .ok [hdrRgpu, "  Matrix Multiplications: " ++ getPlain d "Real GPU Matrix Multiplications",
           "  Time Taken: " ++ t ++ " seconds"]
    | .error e => .error e
  else .ok []

/-- The network section of the report. -/
def renderNet (d : Dict) : Except PyExn (List String) :=
  if dictContains d "Net Send Speed (MB/s)" then
    match get2f d "Net Send Speed (MB/s)", get2f d "Net Receive Speed (MB/s)" with
    | .ok s, .ok r => .ok [hdrNet, "  Send Speed: " ++ s ++ " MB/s", "  Receive Speed: " ++ r ++ " MB/s"]
    | .error e, _ => .error e
    | _, .error e => .error e
  else .ok []

/-- The report printing of `main` (source lines 316-375): header frame,
early return with the no-data message on an empty table, otherwise the
nine sections in their fixed static order followed by the closing frame.
On a raised formatting `ValueError` the partial prints made before the
raise are not modelled — only that the final print is never reached. -/
def renderReport (d : Dict) : Except PyExn (List String) :=
  if d.isEmpty then .ok (reportHeader ++ [noDataMsg])
  else
    render2D d >>= fun s1 =>
    render3D d >>= fun s2 =>
    renderMc d >>= fun s3 =>
    renderCpu d >>= fun s4 =>
    renderMem d >>= fun s5 =>
    renderFio d >>= fun s6 =>
    renderSgpu d >>= fun s7 =>
    renderRgpu d >>= fun s8 =>
    renderNet d >>= fun s9 =>
    .ok (reportHeader ++ s1 ++ s2 ++ s3 ++ s4 ++ s5 ++ s6 ++ s7 ++ s8 ++ s9 ++ [footerLine])

/-- The whole of `main` for a given environment: the `try` block, the
`finally` block (whose own exception replaces any in-flight one), then —
only if nothing was raised — the report.  Returns the run result and the
final state of the background server process. -/
def mainRun (env : Env) : RunResult × SState :=
  let rs := tryBlock env
  let fs := finallyBlock rs.2
  match fs.2 with
  | some e => (.raised e, fs.1)
  | none =>
    match rs.1 with
    | .error e => (.raised e, fs.1)
    | .ok table =>
      match renderReport table with
      | .error e => (.raised e, fs.1)
      | .ok rep => (.normal rep, fs.1)

/-- Whether an `Except` carries a value. -/
def exIsOk {α : Type} : Except PyExn α → Bool
  | .ok _ => true
  | .error _ => false

/-- A line on which an extractor's step is a no-op: either no `if` arm's
guard substrings all occur in it, or an arm is selected but its
`re.search` has no match. -/
def lineNeutralB (rules : List Rule) (line : String) : Bool :=
  match firstMatching rules line with
  | none => true
  | some r =>
    match rsearch r.pat line with
    | some (_ :: []) => false
    | _ => true

/-- A blocking probe outcome on which its phase cannot raise: either the
probe fails (phase skips parsing), or it succeeds and its extractor does
not raise on its stdout. -/
def phaseOkB (extractor : String → Except PyExn Dict) : ProbeOutcome → Bool
  | .ran code out _ => if code == 0 then exIsOk (extractor out) else true
  | _ => true

/-- All phases of a run are non-raising (the client phase only matters if
the server started). -/
def parsersOkB (env : Env) : Bool :=
  phaseOkB parse_2d_output env.o2d && phaseOkB parse_3d_output env.o3d &&
  phaseOkB parse_mcseedgen_output env.oMc && phaseOkB parse_cpu_output env.oCpu &&
  phaseOkB parse_memory_output env.oMem && phaseOkB parse_file_io_output env.oFio &&
  phaseOkB parse_simulated_gpu_output env.oSgpu && phaseOkB parse_real_gpu_output env.oRgpu &&
  (match env.oServer with
   | .started _ => phaseOkB parse_net_client_output env.oClient
   | _ => true)

/-- The server, if it starts at all, exits within the 5-second wait after
`terminate()`. -/
def serverOkB (env : Env) : Bool :=
  match env.oServer with
  | .started r => r
  | _ => true

/-- Report lines that open a section: exactly the prints that start with a
newline and three dashes. -/
def isSecHeader (l : String) : Bool := isPrefixL ['\n', '-', '-', '-'] l.data

/-- Static description of one report section: its header print, the single
key whose presence the source tests to include the section, and every key
the section reads. -/
structure SectionSpec where
  header : String
  trigger : String
  keys : List String

/-- The nine report sections in their fixed static order. -/
def sectionSpecs : List SectionSpec :=
  [ ⟨hdr2D, "2D Total Sprites",
      ["2D Total Sprites", "2D Lowest FPS", "2D Highest FPS", "2D Average FPS"]⟩,
    ⟨hdr3D, "3D Total Cubes",
      ["3D Total Cubes", "3D Lowest FPS", "3D Highest FPS", "3D Average FPS"]⟩,
    ⟨hdrMc, "MC Seeds Generated", ["MC Seeds Generated", "MC Generation Time (s)"]⟩,
    ⟨hdrCpu, "CPU Primes Found", ["CPU Primes Found", "CPU Time Taken (s)"]⟩,
    ⟨hdrMem, "Memory Allocation Cycles", ["Memory Allocation Cycles", "Memory Time Taken (s)"]⟩,
    ⟨hdrFio, "File I/O Write Speed (MB/s)",
      ["File I/O Write Speed (MB/s)", "File I/O Read Speed (MB/s)"]⟩,
    ⟨hdrSgpu, "Simulated GPU Matrix Multiplications",
      ["Simulated GPU Matrix Multiplications", "Simulated GPU Time Taken (s)"]⟩,
    ⟨hdrRgpu, "Real GPU Matrix Multiplications",
      ["Real GPU Matrix Multiplications", "Real GPU Time Taken (s)"]⟩,
    ⟨hdrNet, "Net Send Speed (MB/s)", ["Net Send Speed (MB/s)", "Net Receive Speed (MB/s)"]⟩ ]

/-- The key sets the nine extractors can write, in probe order. -/
def probeKeysets : List (List String) :=
  [rules2d.map Rule.key, rules3d.map Rule.key,
   ["MC Seeds Generated", "MC Generation Time (s)"],
   rulesCpu.map Rule.key, rulesMemory.map Rule.key, rulesFio.map Rule.key,
   rulesSgpu.map Rule.key, rulesRgpu.map Rule.key, rulesNet.map Rule.key]

theorem exceptBind_ok {α β : Type} (a : α) (f : α → Except PyExn β) :
    (Except.ok a >>= f) = f a := rfl

theorem exceptBind_error {α β : Type} (e : PyExn) (f : α → Except PyExn β) :
    ((Except.error e : Except PyExn α) >>= f) = .error e := rfl

theorem exIsOk_exists {α : Type} {x : Except PyExn α} (h : exIsOk x = true) :
    ∃ a, x = .ok a := by
  cases x with
  | ok a => exact ⟨a, rfl⟩
  | error e => simp [exIsOk] at h

theorem foldE_append (step : Dict → String → Except PyExn Dict) (s : Dict)
    (A B : List String) :
    foldE step s (A ++ B) =
      match foldE step s A with
      | .ok m => foldE step m B
      | .error e => .error e := by
  induction A generalizing s with
  | nil => simp [foldE]
  | cons l ls ih =>
    simp only [List.cons_append, foldE]
    cases step s l with
    | ok s' => simpa using ih s'
    | error e => simp

theorem foldE_neutral (step : Dict → String → Except PyExn Dict) (A : List String)
    (s : Dict) (h : ∀ l ∈ A, ∀ st, step st l = .ok st) : foldE step s A = .ok s := by
  induction A with
  | nil => rfl
  | cons l ls ih =>
    simp only [foldE, h l (List.mem_cons_self l ls) s]
    exact ih (fun x hx st => h x (List.mem_cons_of_mem l hx) st)

theorem ruleStep_neutral (rules : List Rule) (l : String)
    (h : lineNeutralB rules l = true) (st : Dict) : ruleStep rules st l = .ok st := by
  cases hf : firstMatching rules l with
  | none => simp [ruleStep, hf]
  | some r =>
    cases hr : rsearch r.pat l with
    | none => simp [ruleStep, hf, hr]
    | some gs =>
      match gs with
      | [] => simp [ruleStep, hf, hr]
      | [g] =>
        exfalso
        simp [lineNeutralB, hf, hr] at h
      | g :: g2 :: rest => simp [ruleStep, hf, hr]

theorem ruleStep_float_error (rules : List Rule) (l : String) (r : Rule) (g : String)
    (hf : firstMatching rules l = some r) (hr : rsearch r.pat l = some [g])
    (hi : r.isInt = false) (hp : pyFloat g = none) (st : Dict) :
    ruleStep rules st l = .error .valueError := by
  simp [ruleStep, hf, hr, hi, hp]

theorem ruleStep_set_int (rules : List Rule) (l : String) (r : Rule) (g : String)
    (hf : firstMatching rules l = some r) (hr : rsearch r.pat l = some [g])
    (hi : r.isInt = true) (st : Dict) :
    ruleStep rules st l = .ok (dictSet st r.key (.int (pyInt g))) := by
  simp [ruleStep, hf, hr, hi]

theorem ruleStep_set_float (rules : List Rule) (l : String) (r : Rule) (g : String) (q : ℚ)
    (hf : firstMatching rules l = some r) (hr : rsearch r.pat l = some [g])
    (hi : r.isInt = false) (hp : pyFloat g = some q) (st : Dict) :
    ruleStep rules st l = .ok (dictSet st r.key (.float q)) := by
  simp [ruleStep, hf, hr, hi, hp]

theorem firstMatching_mem (rules : List Rule) (l : String) (r : Rule)
    (h : firstMatching rules l = some r) : r ∈ rules := by
  induction rules with
  | nil => simp [firstMatching] at h
  | cons r0 rs ih =>
    unfold firstMatching at h
    by_cases hg : r0.substrs.all (fun n => containsSub n l) = true
    · rw [if_pos hg] at h
      cases h
      exact List.mem_cons_self _ _
    · rw [if_neg hg] at h
      exact List.mem_cons_of_mem r0 (ih h)

theorem dlookup_map_set_ne (d : Dict) (k k' : String) (v : MValue) (h : k' ≠ k) :
    dlookup (d.map (fun p => if p.1 = k then (k, v) else p)) k' = dlookup d k' := by
  induction d with
  | nil => rfl
  | cons p rest ih =>
    obtain ⟨a, b⟩ := p
    by_cases ha : a = k
    · subst ha
      have hak : ¬ a = k' := fun hak => h hak.symm
      simp only [List.map_cons]
      simp [dlookup, hak, ih]
    · simp only [List.map_cons]
      rw [if_neg (show ¬ (((a : String), b).1 = k) from ha)]
      simp [dlookup, ih]

theorem dlookup_append_single_ne (d : Dict) (k k' : String) (v : MValue) (h : k' ≠ k) :
    dlookup (d ++ [(k, v)]) k' = dlookup d k' := by
  induction d with
  | nil =>
    have : ¬ k = k' := fun hk => h hk.symm
    simp [dlookup, this]
  | cons p rest ih =>
    obtain ⟨a, b⟩ := p
    by_cases ha : a = k'
    · simp [dlookup, ha]
    · simp [dlookup, ha, ih]

theorem dlookup_dictSet_ne (d : Dict) (k k' : String) (v : MValue) (h : k' ≠ k) :
    dlookup (dictSet d k v) k' = dlookup d k' := by
  unfold dictSet
  by_cases hc : dictContains d k
  · rw [if_pos hc]
    exact dlookup_map_set_ne d k k' v h
  · rw [if_neg hc]
    exact dlookup_append_single_ne d k k' v h

theorem mem_dkeys_dictSet (d : Dict) (k k' : String) (v : MValue)
    (h : k' ∈ dkeys (dictSet d k v)) : k' ∈ dkeys d ∨ k' = k := by
  unfold dictSet at h
  by_cases hc : dictContains d k
  · rw [if_pos hc] at h
    unfold dkeys at h
    rw [List.map_map] at h
    obtain ⟨p, hp, he⟩ := List.mem_map.mp h
    by_cases hpk : p.1 = k
    · right
      simp [Function.comp, hpk] at he
      exact he.symm
    · left
      simp [Function.comp, hpk] at he
      exact List.mem_map.mpr ⟨p, hp, he⟩
  · rw [if_neg hc] at h
    unfold dkeys at h
    rw [List.map_append] at h
    rcases List.mem_append.mp h with h | h
    · left
      exact h
    · right
      simpa using h

theorem dlookup_dictUpdate_not_mem (tbl m : Dict) (k : String) (h : ¬ k ∈ dkeys m) :
    dlookup (dictUpdate tbl m) k = dlookup tbl k := by
  induction m generalizing tbl with
  | nil => rfl
  | cons p m' ih =>
    obtain ⟨k0, v0⟩ := p
    have hk0 : k ≠ k0 := fun he => h (by simp [dkeys, he])
    have hm' : ¬ k ∈ dkeys m' := fun hm => h (by simp [dkeys] at hm ⊢; right; exact hm)
    show dlookup (dictUpdate (dictSet tbl k0 v0) m') k = dlookup tbl k
    rw [ih (dictSet tbl k0 v0) hm', dlookup_dictSet_ne tbl k0 k v0 hk0]

theorem ruleStep_keys (rules : List Rule) (st : Dict) (l : String) (s' : Dict)
    (h : ruleStep rules st l = .ok s') :
    ∀ k ∈ dkeys s', k ∈ dkeys st ∨ k ∈ rules.map Rule.key := by
  intro k hk
  cases hf : firstMatching rules l with
  | none =>
    simp [ruleStep, hf] at h
    subst h
    exact .inl hk
  | some r =>
    have hrm := firstMatching_mem rules l r hf
    cases hr : rsearch r.pat l with
    | none =>
      simp [ruleStep, hf, hr] at h
      subst h
      exact .inl hk
    | some gs =>
      match gs with
      | [] =>
        simp [ruleStep, hf, hr] at h
        subst h
        exact .inl hk
      | [g] =>
        cases hi : r.isInt with
        | true =>
          simp [ruleStep, hf, hr, hi] at h
          subst h
          rcases mem_dkeys_dictSet st r.key k _ hk with h2 | h2
          · exact .inl h2
          · exact .inr (List.mem_map.mpr ⟨r, hrm, h2 ▸ rfl⟩)
        | false =>
          cases hp : pyFloat g with
          | none => simp [ruleStep, hf, hr, hi, hp] at h
          | some q =>
            simp [ruleStep, hf, hr, hi, hp] at h
            subst h
            rcases mem_dkeys_dictSet st r.key k _ hk with h2 | h2
            · exact .inl h2
            · exact .inr (List.mem_map.mpr ⟨r, hrm, h2 ▸ rfl⟩)
      | g :: g2 :: t =>
        simp [ruleStep, hf, hr] at h
        subst h
        exact .inl hk

theorem foldE_keys (rules : List Rule) (ls : List String) :
    ∀ (init d : Dict), foldE (ruleStep rules) init ls = .ok d →
    ∀ k ∈ dkeys d, k ∈ dkeys init ∨ k ∈ rules.map Rule.key := by
  induction ls with
  | nil =>
    intro init d h k hk
    unfold foldE at h
    cases h
    exact .inl hk
  | cons l ls ih =>
    intro init d h k hk
    unfold foldE at h
    cases hs : ruleStep rules init l with
    | error e => rw [hs] at h; cases h
    | ok s' =>
      rw [hs] at h
      rcases ih s' d h k hk with h1 | h1
      · exact ruleStep_keys rules init l s' hs k h1
      · exact .inr h1

theorem strData_append (a b : String) : (a ++ b).data = a.data ++ b.data := by
  cases a
  cases b
  rfl

theorem containsSubAux_append_right (n a b : List Char) (h : containsSubAux n b = true) :
    containsSubAux n (a ++ b) = true := by
  induction a with
  | nil => simpa using h
  | cons c cs ih => simp [containsSubAux, ih]

theorem containsSub_append_right (n a b : String) (h : containsSub n b = true) :
    containsSub n (a ++ b) = true := by
  unfold containsSub at *
  rw [strData_append]
  exact containsSubAux_append_right _ _ _ h

theorem notSecHeader_of_space (p v : String) (tl : List Char)
    (hp : p.data = ' ' :: tl) : isSecHeader (p ++ v) = false := by
  unfold isSecHeader
  rw [strData_append, hp]
  simp [isPrefixL]

theorem probePhase_ok (script : String) (extractor : String → Except PyExn Dict)
    (o : ProbeOutcome) (h : phaseOkB extractor o = true) (acc : Dict) :
    ∃ t, probePhase script extractor o acc = .ok t := by
  cases o with
  | notFound => exact ⟨acc, rfl⟩
  | spawnError m => exact ⟨acc, rfl⟩
  | ran code out err =>
    cases hcode : code == 0 with
    | false => exact ⟨acc, by simp [probePhase, run_script_and_capture_output, hcode]⟩
    | true =>
      simp [phaseOkB, hcode] at h
      obtain ⟨m, hm⟩ := exIsOk_exists h
      exact ⟨dictUpdate acc m, by simp [probePhase, run_script_and_capture_output, hcode, hm]⟩

theorem dictContains_of_get2f (d : Dict) (k : String) (s : String)
    (h : get2f d k = .ok s) : dictContains d k = true := by
  unfold get2f at h
  cases hl : dlookup d k with
  | none => rw [hl] at h; cases h
  | some v => simp [dictContains, hl]

theorem notSecHeader_of_space2 (p v w : String) (tl : List Char)
    (hp : p.data = ' ' :: tl) : isSecHeader (p ++ v ++ w) = false := by
  unfold isSecHeader
  rw [strData_append, strData_append, hp]
  simp [isPrefixL]

theorem render2D_filter (d : Dict) (ls : List String) (h : render2D d = .ok ls) :
    ls.filter isSecHeader = (if dictContains d "2D Total Sprites" then [hdr2D] else []) := by
  unfold render2D at h
  by_cases hc : dictContains d "2D Total Sprites" = true
  · rw [if_pos hc] at h
    rw [if_pos hc]
    cases h1 : get2f d "2D Lowest FPS" with
    | error e => simp [h1] at h
    | ok a =>
      cases h2 : get2f d "2D Highest FPS" with
      | error e => simp [h1, h2] at h
      | ok b =>
        cases h3 : get2f d "2D Average FPS" with
        | error e => simp [h1, h2, h3] at h
        | ok c =>
          simp only [h1, h2, h3] at h
          cases h
          have e0 : isSecHeader hdr2D = true := rfl
          have e1 : isSecHeader ("  Total Sprites: " ++ getPlain d "2D Total Sprites") = false :=
            notSecHeader_of_space _ _ _ rfl
          have e2 : isSecHeader ("  Lowest FPS: " ++ a) = false := notSecHeader_of_space _ _ _ rfl
          have e3 : isSecHeader ("  Highest FPS: " ++ b) = false := notSecHeader_of_space _ _ _ rfl
          have e4 : isSecHeader ("  Average FPS: " ++ c) = false := notSecHeader_of_space _ _ _ rfl
          simp [List.filter_cons, e0, e1, e2, e3, e4]
  · rw [if_neg hc] at h
    rw [if_neg hc]
    cases h
    rfl

theorem render2D_keys (d : Dict) (ls : List String) (h : render2D d = .ok ls)
    (hc : dictContains d "2D Total Sprites" = true) :
    ∀ k ∈ ["2D Total Sprites", "2D Lowest FPS", "2D Highest FPS", "2D Average FPS"],
      dictContains d k = true := by
  unfold render2D at h
  rw [if_pos hc] at h
  cases h1 : get2f d "2D Lowest FPS" with
  | error e => simp [h1] at h
  | ok a =>
    cases h2 : get2f d "2D Highest FPS" with
    | error e => simp [h1, h2] at h
    | ok b =>
      cases h3 : get2f d "2D Average FPS" with
      | error e => simp [h1, h2, h3] at h
      | ok c =>
        intro k hk
        simp at hk
        rcases hk with rfl | rfl | rfl | rfl
        · exact hc
        · exact dictContains_of_get2f _ _ _ h1
        · exact dictContains_of_get2f _ _ _ h2
        · exact dictContains_of_get2f _ _ _ h3

theorem render3D_filter (d : Dict) (ls : List String) (h : render3D d = .ok ls) :
    ls.filter isSecHeader = (if dictContains d "3D Total Cubes" then [hdr3D] else []) := by
  unfold render3D at h
  by_cases hc : dictContains d "3D Total Cubes" = true
  · rw [if_pos hc] at h
    rw [if_pos hc]
    cases h1 : get2f d "3D Lowest FPS" with
    | error e => simp [h1] at h
    | ok a =>
      cases h2 : get2f d "3D Highest FPS" with
      | error e => simp [h1, h2] at h
      | ok b =>
        cases h3 : get2f d "3D Average FPS" with
        | error e => simp [h1, h2, h3] at h
        | ok c =>
          simp only [h1, h2, h3] at h
          cases h
          have e0 : isSecHeader hdr3D = true := rfl
          have e1 : isSecHeader ("  Total Cubes: " ++ getPlain d "3D Total Cubes") = false :=
            notSecHeader_of_space _ _ _ rfl
          have e2 : isSecHeader ("  Lowest FPS: " ++ a) = false := notSecHeader_of_space _ _ _ rfl
          have e3 : isSecHeader ("  Highest FPS: " ++ b) = false := notSecHeader_of_space _ _ _ rfl
          have e4 : isSecHeader ("  Average FPS: " ++ c) = false := notSecHeader_of_space _ _ _ rfl
          simp [List.filter_cons, e0, e1, e2, e3, e4]
  · rw [if_neg hc] at h
    rw [if_neg hc]
    cases h
    rfl

theorem render3D_keys (d : Dict) (ls : List String) (h : render3D d = .ok ls)
    (hc : dictContains d "3D Total Cubes" = true) :
    ∀ k ∈ ["3D Total Cubes", "3D Lowest FPS", "3D Highest FPS", "3D Average FPS"],
      dictContains d k = true := by
  unfold render3D at h
  rw [if_pos hc] at h
  cases h1 : get2f d "3D Lowest FPS" with
  | error e => simp [h1] at h
  | ok a =>
    cases h2 : get2f d "3D Highest FPS" with
    | error e => simp [h1, h2] at h
    | ok b =>
      cases h3 : get2f d "3D Average FPS" with
      | error e => simp [h1, h2, h3] at h
      | ok c =>
        intro k hk
        simp at hk
        rcases hk with rfl | rfl | rfl | rfl
        · exact hc
        · exact dictContains_of_get2f _ _ _ h1
        · exact dictContains_of_get2f _ _ _ h2
        · exact dictContains_of_get2f _ _ _ h3

theorem renderMc_filter (d : Dict) (ls : List String) (h : renderMc d = .ok ls) :
    ls.filter isSecHeader = (if dictContains d "MC Seeds Generated" then [hdrMc] else []) := by
  unfold renderMc at h
  by_cases hc : dictContains d "MC Seeds Generated" = true
  · rw [if_pos hc] at h
    rw [if_pos hc]
    cases h1 : get2f d "MC Generation Time (s)" with
    | error e => simp [h1] at h
    | ok t =>
      simp only [h1] at h
      cases h
      have e0 : isSecHeader hdrMc = true := rfl
      have e1 : isSecHeader ("  Seeds Generated: " ++ getPlain d "MC Seeds Generated") = false :=
        notSecHeader_of_space _ _ _ rfl
      have e2 : isSecHeader ("  Generation Time: " ++ t ++ " seconds") = false :=
        notSecHeader_of_space2 _ _ _ _ rfl
      simp [List.filter_cons, e0, e1, e2]
  · rw [if_neg hc] at h
    rw [if_neg hc]
    cases h
    rfl

theorem renderMc_keys (d : Dict) (ls : List String) (h : renderMc d = .ok ls)
    (hc : dictContains d "MC Seeds Generated" = true) :
    ∀ k ∈ ["MC Seeds Generated", "MC Generation Time (s)"], dictContains d k = true := by
  unfold renderMc at h
  rw [if_pos hc] at h
  cases h1 : get2f d "MC Generation Time (s)" with
  | error e => simp [h1] at h
  | ok t =>
    intro k hk
    simp at hk
    rcases hk with rfl | rfl
    · exact hc
    · exact dictContains_of_get2f _ _ _ h1

theorem renderCpu_filter (d : Dict) (ls : List String) (h : renderCpu d = .ok ls) :
    ls.filter isSecHeader = (if dictContains d "CPU Primes Found" then [hdrCpu] else []) := by
  unfold renderCpu at h
  by_cases hc : dictContains d "CPU Primes Found" = true
  · rw [if_pos hc] at h
    rw [if_pos hc]
    cases h1 : get2f d "CPU Time Taken (s)" with
    | error e => simp [h1] at h
    | ok t =>
      simp only [h1] at h
      cases h
      have e0 : isSecHeader hdrCpu = true := rfl
      have e1 : isSecHeader ("  Primes Found: " ++ getPlain d "CPU Primes Found") = false :=
        notSecHeader_of_space _ _ _ rfl
      have e2 : isSecHeader ("  Time Taken: " ++ t ++ " seconds") = false :=
        notSecHeader_of_space2 _ _ _ _ rfl
      simp [List.filter_cons, e0, e1, e2]
  · rw [if_neg hc] at h
    rw [if_neg hc]
    cases h
    rfl

theorem renderCpu_keys (d : Dict) (ls : List String) (h : renderCpu d = .ok ls)
    (hc : dictContains d "CPU Primes Found" = true) :
    ∀ k ∈ ["CPU Primes Found", "CPU Time Taken (s)"], dictContains d k = true := by
  unfold renderCpu at h
  rw [if_pos hc] at h
  cases h1 : get2f d "CPU Time Taken (s)" with
  | error e => simp [h1] at h
  | ok t =>
    intro k hk
    simp at hk
    rcases hk with rfl | rfl
    · exact hc
    · exact dictContains_of_get2f _ _ _ h1

theorem renderMem_filter (d : Dict) (ls : List String) (h : renderMem d = .ok ls) :
    ls.filter isSecHeader = (if dictContains d "Memory Allocation Cycles" then [hdrMem] else []) := by
  unfold renderMem at h
  by_cases hc : dictContains d "Memory Allocation Cycles" = true
  · rw [if_pos hc] at h
    rw [if_pos hc]
    cases h1 : get2f d "Memory Time Taken (s)" with
    | error e => simp [h1] at h
    | ok t =>
      simp only [h1] at h
      cases h
      have e0 : isSecHeader hdrMem = true := rfl
      have e1 : isSecHeader ("  Allocation Cycles: " ++ getPlain d "Memory Allocation Cycles") = false :=
        notSecHeader_of_space _ _ _ rfl
      have e2 : isSecHeader ("  Time Taken: " ++ t ++ " seconds") = false :=
        notSecHeader_of_space2 _ _ _ _ rfl
      simp [List.filter_cons, e0, e1, e2]
  · rw [if_neg hc] at h
    rw [if_neg hc]
    cases h
    rfl

theorem renderMem_keys (d : Dict) (ls : List String) (h : renderMem d = .ok ls)
    (hc : dictContains d "Memory Allocation Cycles" = true) :
    ∀ k ∈ ["Memory Allocation Cycles", "Memory Time Taken (s)"], dictContains d k = true := by
  unfold renderMem at h
  rw [if_pos hc] at h
  cases h1 : get2f d "Memory Time Taken (s)" with
  | error e => simp [h1] at h
  | ok t =>
    intro k hk
    simp at hk
    rcases hk with rfl | rfl
    · exact hc
    · exact dictContains_of_get2f _ _ _ h1

theorem renderFio_filter (d : Dict) (ls : List String) (h : renderFio d = .ok ls) :
    ls.filter isSecHeader =
      (if dictContains d "File I/O Write Speed (MB/s)" then [hdrFio] else []) := by
  unfold renderFio at h
  by_cases hc : dictContains d "File I/O Write Speed (MB/s)" = true
  · rw [if_pos hc] at h
    rw [if_pos hc]
    cases h1 : get2f d "File I/O Write Speed (MB/s)" with
    | error e => simp [h1] at h
    | ok w =>
      cases h2 : get2f d "File I/O Read Speed (MB/s)" with
      | error e => simp [h1, h2] at h
      | ok r =>
        simp only [h1, h2] at h
        cases h
        have e0 : isSecHeader hdrFio = true := rfl
        have e1 : isSecHeader ("  Write Speed: " ++ w ++ " MB/s") = false :=
          notSecHeader_of_space2 _ _ _ _ rfl
        have e2 : isSecHeader ("  Read Speed: " ++ r ++ " MB/s") = false :=
          notSecHeader_of_space2 _ _ _ _ rfl
        simp [List.filter_cons, e0, e1, e2]
  · rw [if_neg hc] at h
    rw [if_neg hc]
    cases h
    rfl

theorem renderFio_keys (d : Dict) (ls : List String) (h : renderFio d = .ok ls)
    (hc : dictContains d "File I/O Write Speed (MB/s)" = true) :
    ∀ k ∈ ["File I/O Write Speed (MB/s)", "File I/O Read Speed (MB/s)"],
      dictContains d k = true := by
  unfold renderFio at h
  rw [if_pos hc] at h
  cases h1 : get2f d "File I/O Write Speed (MB/s)" with
  | error e => simp [h1] at h
  | ok w =>
    cases h2 : get2f d "File I/O Read Speed (MB/s)" with
    | error e => simp [h1, h2] at h
    | ok r =>
      intro k hk
      simp at hk
      rcases hk with rfl | rfl
      · exact hc
      · exact dictContains_of_get2f _ _ _ h2

theorem renderSgpu_filter (d : Dict) (ls : List String) (h : renderSgpu d = .ok ls) :
    ls.filter isSecHeader =
      (if dictContains d "Simulated GPU Matrix Multiplications" then [hdrSgpu] else []) := by
  unfold renderSgpu at h
  by_cases hc : dictContains d "Simulated GPU Matrix Multiplications" = true
  · rw [if_pos hc] at h
    rw [if_pos hc]
    cases h1 : get2f d "Simulated GPU Time Taken (s)" with
    | error e => simp [h1] at h
    | ok t =>
      simp only [h1] at h
      cases h
      have e0 : isSecHeader hdrSgpu = true := rfl
      have e1 : isSecHeader
          ("  Matrix Multiplications: " ++ getPlain d "Simulated GPU Matrix Multiplications") = false :=
        notSecHeader_of_space _ _ _ rfl
      have e2 : isSecHeader ("  Time Taken: " ++ t ++ " seconds") = false :=
        notSecHeader_of_space2 _ _ _ _ rfl
      simp [List.filter_cons, e0, e1, e2]
  · rw [if_neg hc] at h
    rw [if_neg hc]
    cases h
    rfl

theorem renderSgpu_keys (d : Dict) (ls : List String) (h : renderSgpu d = .ok ls)
    (hc : dictContains d "Simulated GPU Matrix Multiplications" = true) :
    ∀ k ∈ ["Simulated GPU Matrix Multiplications", "Simulated GPU Time Taken (s)"],
      dictContains d k = true := by
  unfold renderSgpu at h
  rw [if_pos hc] at h
  cases h1 : get2f d "Simulated GPU Time Taken (s)" with
  | error e => simp [h1] at h
  | ok t =>
    intro k hk
    simp at hk
    rcases hk with rfl | rfl
    · exact hc
    · exact dictContains_of_get2f _ _ _ h1

theorem renderRgpu_filter (d : Dict) (ls : List String) (h : renderRgpu d = .ok ls) :
    ls.filter isSecHeader =
      (if dictContains d "Real GPU Matrix Multiplications" then [hdrRgpu] else []) := by
  unfold renderRgpu at h
  by_cases hc : dictContains d "Real GPU Matrix Multiplications" = true
  · rw [if_pos hc] at h
    rw [if_pos hc]
    cases h1 : get2f d "Real GPU Time Taken (s)" with
    | error e => simp [h1] at h
    | ok t =>
      simp only [h1] at h
      cases h
      have e0 : isSecHeader hdrRgpu = true := rfl
      have e1 : isSecHeader
          ("  Matrix Multiplications: " ++ getPlain d "Real GPU Matrix Multiplications") = false :=
        notSecHeader_of_space _ _ _ rfl
      have e2 : isSecHeader ("  Time Taken: " ++ t ++ " seconds") = false :=
        notSecHeader_of_space2 _ _ _ _ rfl
      simp [List.filter_cons, e0, e1, e2]
  · rw [if_neg hc] at h
    rw [if_neg hc]
    cases h
    rfl

theorem renderRgpu_keys (d : Dict) (ls : List String) (h : renderRgpu d = .ok ls)
    (hc : dictContains d "Real GPU Matrix Multiplications" = true) :
    ∀ k ∈ ["Real GPU Matrix Multiplications", "Real GPU Time Taken (s)"],
      dictContains d k = true := by
  unfold renderRgpu at h
  rw [if_pos hc] at h
  cases h1 : get2f d "Real GPU Time Taken (s)" with
  | error e => simp [h1] at h
  | ok t =>
    intro k hk
    simp at hk
    rcases hk with rfl | rfl
    · exact hc
    · exact dictContains_of_get2f _ _ _ h1

theorem renderNet_filter (d : Dict) (ls : List String) (h : renderNet d = .ok ls) :
    ls.filter isSecHeader = (if dictContains d "Net Send Speed (MB/s)" then [hdrNet] else []) := by
  unfold renderNet at h
  by_cases hc : dictContains d "Net Send Speed (MB/s)" = true
  · rw [if_pos hc] at h
    rw [if_pos hc]
    cases h1 : get2f d "Net Send Speed (MB/s)" with
    | error e => simp [h1] at h
    | ok s =>
      cases h2 : get2f d "Net Receive Speed (MB/s)" with
      | error e => simp [h1, h2] at h
      | ok r =>
        simp only [h1, h2] at h
        cases h
        have e0 : isSecHeader hdrNet = true := rfl
        have e1 : isSecHeader ("  Send Speed: " ++ s ++ " MB/s") = false :=
          notSecHeader_of_space2 _ _ _ _ rfl
        have e2 : isSecHeader ("  Receive Speed: " ++ r ++ " MB/s") = false :=
          notSecHeader_of_space2 _ _ _ _ rfl
        simp [List.filter_cons, e0, e1, e2]
  · rw [if_neg hc] at h
    rw [if_neg hc]
    cases h
    rfl

theorem renderNet_keys (d : Dict) (ls : List String) (h : renderNet d = .ok ls)
    (hc : dictContains d "Net Send Speed (MB/s)" = true) :
    ∀ k ∈ ["Net Send Speed (MB/s)", "Net Receive Speed (MB/s)"], dictContains d k = true := by
  unfold renderNet at h
  rw [if_pos hc] at h
  cases h1 : get2f d "Net Send Speed (MB/s)" with
  | error e => simp [h1] at h
  | ok s =>
    cases h2 : get2f d "Net Receive Speed (MB/s)" with
    | error e => simp [h1, h2] at h
    | ok r =>
      intro k hk
      simp at hk
      rcases hk with rfl | rfl
      · exact hc
      · exact dictContains_of_get2f _ _ _ h2

theorem filter_map_eq_flatten {α β : Type} (l : List α) (p : α → Bool) (f : α → β) :
    (l.filter p).map f = (l.map fun a => if p a then [f a] else []).flatten := by
  induction l with
  | nil => rfl
  | cons a as ih =>
    by_cases hp : p a
    · simp [List.filter_cons, hp, ih]
    · simp [List.filter_cons, hp, ih]

/-- Claim C1 (code bug): the claim says that on every exit path of the
network section the orchestrator terminates the server, waits up to 5
seconds and escalates to a forced kill if the server is still alive, so
that the server is never left running.  The code's `kill()` lines are
unreachable: `wait(timeout=5)` returns only when the process has already
exited and raises `TimeoutExpired` otherwise, skipping the
`poll()`-then-`kill()` check in both the network section and the
`finally` block.  Evaluated at an environment whose server ignores the
terminate signal and whose client succeeds: the run aborts with
`TimeoutExpired`, no kill happens, and the server process is still alive
after the orchestrator exits. -/
theorem c1_teardown_kill_unreachable :
    mainRun ⟨.notFound, .notFound, .notFound, .notFound, .notFound, .notFound, .notFound,
        .notFound, .started false, .ran 0 "" ""⟩ =
      (.raised .timeoutExpired, .server false .running)
    ∧ serverAlive (mainRun ⟨.notFound, .notFound, .notFound, .notFound, .notFound, .notFound,
        .notFound, .notFound, .started false, .ran 0 "" ""⟩).2 = true :=
  ⟨rfl, rfl⟩

/-- Claim C2, counterexample: the claim says no failure ever propagates
to the top level and the orchestrator's exit status is always 0.  But
`main`'s `try` has only a `finally`, no `except`: when the CPU probe
succeeds with stdout "Time Taken: 1.2.3 seconds", the extractor's
`float("1.2.3")` raises `ValueError`, which propagates uncaught — the run
aborts with a nonzero exit and the final report is never printed. -/
theorem c2_parser_exception_aborts :
    (mainRun ⟨.notFound, .notFound, .notFound, .ran 0 "Time Taken: 1.2.3 seconds" "",
        .notFound, .notFound, .notFound, .notFound, .notFound, .notFound⟩).1 =
      .raised .valueError := rfl

/-- Claim C2, amended: failures of probe invocation itself (missing
executable, spawn exception, nonzero exit) are all caught at the
invocation site and the run continues.  Provided additionally that no
extractor raises on a successful probe's stdout, that the server (if it
started) exits within the terminate wait, and that report formatting does
not raise, the orchestrator reaches the final report normally (exit
status 0) and the server is not left alive. -/
theorem c2_failures_contained (env : Env) (h1 : parsersOkB env = true)
    (h2 : serverOkB env = true)
    (h3 : ∀ t, (tryBlock env).1 = .ok t → exIsOk (renderReport t) = true) :
    ∃ rep ss, mainRun env = (.normal rep, ss) ∧ serverAlive ss = false := by
  simp only [parsersOkB, Bool.and_eq_true] at h1
  obtain ⟨⟨⟨⟨⟨⟨⟨⟨p1, p2⟩, p3⟩, p4⟩, p5⟩, p6⟩, p7⟩, p8⟩, pc⟩ := h1
  obtain ⟨t1, e1⟩ := probePhase_ok SCRIPT_2D_TEST parse_2d_output env.o2d p1 []
  obtain ⟨t2, e2⟩ := probePhase_ok SCRIPT_3D_TEST parse_3d_output env.o3d p2 t1
  obtain ⟨t3, e3⟩ := probePhase_ok SCRIPT_MC_SEEDGEN parse_mcseedgen_output env.oMc p3 t2
  obtain ⟨t4, e4⟩ := probePhase_ok SCRIPT_CPU_TEST parse_cpu_output env.oCpu p4 t3
  obtain ⟨t5, e5⟩ := probePhase_ok SCRIPT_MEMORY_TEST parse_memory_output env.oMem p5 t4
  obtain ⟨t6, e6⟩ := probePhase_ok SCRIPT_FILE_IO_TEST parse_file_io_output env.oFio p6 t5
  obtain ⟨t7, e7⟩ :=
    probePhase_ok SCRIPT_SIMULATED_GPU_TEST parse_simulated_gpu_output env.oSgpu p7 t6
  obtain ⟨t8, e8⟩ := probePhase_ok SCRIPT_REAL_GPU_TEST parse_real_gpu_output env.oRgpu p8 t7
  have hb : blockingPhases env = .ok t8 := by
    simp only [blockingPhases, e1, e2, e3, e4, e5, e6, e7, e8, exceptBind_ok]
  cases hsv : env.oServer with
  | notFound =>
    have htb : tryBlock env = (.ok t8, .noServer) := by
      simp [tryBlock, hb, hsv, run_script_and_capture_output_bg]
    obtain ⟨rep, hrep⟩ := exIsOk_exists (h3 t8 (by rw [htb]))
    exact ⟨rep, .noServer, by simp [mainRun, htb, finallyBlock, hrep], rfl⟩
  | spawnError =>
    have htb : tryBlock env = (.ok t8, .noServer) := by
      simp [tryBlock, hb, hsv, run_script_and_capture_output_bg]
    obtain ⟨rep, hrep⟩ := exIsOk_exists (h3 t8 (by rw [htb]))
    exact ⟨rep, .noServer, by simp [mainRun, htb, finallyBlock, hrep], rfl⟩
  | started r =>
    have hr : r = true := by simpa [serverOkB, hsv] using h2
    subst hr
    rw [hsv] at pc
    obtain ⟨t9, e9⟩ := probePhase_ok SCRIPT_NET_CLIENT parse_net_client_output env.oClient pc t8
    have htb : tryBlock env = (.ok t9, .server true .exited) := by
      simp [tryBlock, hb, hsv, run_script_and_capture_output_bg, e9]
    obtain ⟨rep, hrep⟩ := exIsOk_exists (h3 t9 (by rw [htb]))
    exact ⟨rep, .server true .exited, by simp [mainRun, htb, finallyBlock, hrep], rfl⟩

/-- Claim C2, witness: with every probe missing, the orchestrator ends
normally with the no-data report. -/
theorem c2_failures_contained_witness :
    ∃ rep ss,
      mainRun ⟨.notFound, .notFound, .notFound, .notFound, .notFound, .notFound, .notFound,
          .notFound, .notFound, .notFound⟩ = (.normal rep, ss) ∧ serverAlive ss = false :=
  c2_failures_contained
    ⟨.notFound, .notFound, .notFound, .notFound, .notFound, .notFound, .notFound,
      .notFound, .notFound, .notFound⟩
    rfl rfl
    (fun t ht => by
      have h2 : Except.ok ([] : Dict) = Except.ok t := ht
      rw [← Except.ok.inj h2]
      rfl)

/-- Claim C3, counterexample: the claim says a section appears iff at
least one of its expected keys is present, and that missing keys within a
printed section render as "N/A".  Both parts fail.  With only
"2D Lowest FPS" present (an expected 2D key), no 2D section is printed —
the source tests only the specific key "2D Total Sprites".  And with only
"2D Total Sprites" present, the section is printed but the missing float
keys do not render as "N/A": the `:.2f` format applied to the fallback
string raises `ValueError`. -/
theorem c3_section_claim_false :
    (sectionSpecs.any fun s => decide ("2D Lowest FPS" ∈ s.keys)) = true
    ∧ renderReport [("2D Lowest FPS", .float (mkRat 1 1))] = .ok (reportHeader ++ [footerLine])
    ∧ (reportHeader ++ [footerLine]).filter isSecHeader = []
    ∧ renderReport [("2D Total Sprites", .int 5)] = .error .valueError :=
  ⟨rfl, rfl, rfl, rfl⟩

/-- Claim C3, amended: whenever the renderer completes, the section
headers it printed are exactly those of the sections whose specific
trigger key (the first key of the section) is in the table, in the fixed
static order of `sectionSpecs`; and every key of each printed section was
present — a printed section never has a missing key (a missing non-trigger
key would instead raise a `ValueError` from formatting the "N/A" fallback
with `:.2f`, so "N/A" is never rendered). -/
theorem c3_report_sections : ∀ (d : Dict) (rep : List String), renderReport d = .ok rep →
    rep.filter isSecHeader =
      (sectionSpecs.filter (fun s => dictContains d s.trigger)).map SectionSpec.header
    ∧ ∀ s ∈ sectionSpecs, dictContains d s.trigger = true →
        ∀ k ∈ s.keys, dictContains d k = true := by
  intro d rep h
  unfold renderReport at h
  by_cases hd : d.isEmpty
  · rw [if_pos hd] at h
    rw [Except.ok.injEq] at h
    subst h
    have hdnil : d = [] := List.isEmpty_iff.mp hd
    subst hdnil
    constructor
    · rfl
    · intro s hs htrig k hk
      simp [dictContains, dlookup] at htrig
  · rw [if_neg hd] at h
    cases g1 : render2D d with
    | error e => simp [g1, exceptBind_error] at h
    | ok s1 =>
    cases g2 : render3D d with
    | error e => simp [g1, g2, exceptBind_ok, exceptBind_error] at h
    | ok s2 =>
    cases g3 : renderMc d with
    | error e => simp [g1, g2, g3, exceptBind_ok, exceptBind_error] at h
    | ok s3 =>
    cases g4 : renderCpu d with
    | error e => simp [g1, g2, g3, g4, exceptBind_ok, exceptBind_error] at h
    | ok s4 =>
    cases g5 : renderMem d with
    | error e => simp [g1, g2, g3, g4, g5, exceptBind_ok, exceptBind_error] at h
    | ok s5 =>
    cases g6 : renderFio d with
    | error e => simp [g1, g2, g3, g4, g5, g6, exceptBind_ok, exceptBind_error] at h
    | ok s6 =>
    cases g7 : renderSgpu d with
    | error e => simp [g1, g2, g3, g4, g5, g6, g7, exceptBind_ok, exceptBind_error] at h
    | ok s7 =>
    cases g8 : renderRgpu d with
    | error e => simp [g1, g2, g3, g4, g5, g6, g7, g8, exceptBind_ok, exceptBind_error] at h
    | ok s8 =>
    cases g9 : renderNet d with
    | error e => simp [g1, g2, g3, g4, g5, g6, g7, g8, g9, exceptBind_ok, exceptBind_error] at h
    | ok s9 =>
    simp only [g1, g2, g3, g4, g5, g6, g7, g8, g9, exceptBind_ok] at h
    rw [Except.ok.injEq] at h
    subst h
    constructor
    · have f1 := render2D_filter d s1 g1
      have f2 := render3D_filter d s2 g2
      have f3 := renderMc_filter d s3 g3
      have f4 := renderCpu_filter d s4 g4
      have f5 := renderMem_filter d s5 g5
      have f6 := renderFio_filter d s6 g6
      have f7 := renderSgpu_filter d s7 g7
      have f8 := renderRgpu_filter d s8 g8
      have f9 := renderNet_filter d s9 g9
      rw [filter_map_eq_flatten]
      simp only [List.filter_append, f1, f2, f3, f4, f5, f6, f7, f8, f9]
      simp [sectionSpecs, reportHeader, List.filter_cons, isSecHeader, isPrefixL, sep30,
        footerLine, List.append_assoc]
    · intro s hs htrig k hk
      simp only [sectionSpecs, List.mem_cons, List.not_mem_nil, or_false] at hs
      rcases hs with rfl | rfl | rfl | rfl | rfl | rfl | rfl | rfl | rfl
      · exact render2D_keys d s1 g1 htrig k (by simpa using hk)
      · exact render3D_keys d s2 g2 htrig k (by simpa using hk)
      · exact renderMc_keys d s3 g3 htrig k (by simpa using hk)
      · exact renderCpu_keys d s4 g4 htrig k (by simpa using hk)
      · exact renderMem_keys d s5 g5 htrig k (by simpa using hk)
      · exact renderFio_keys d s6 g6 htrig k (by simpa using hk)
      · exact renderSgpu_keys d s7 g7 htrig k (by simpa using hk)
      · exact renderRgpu_keys d s8 g8 htrig k (by simpa using hk)
      · exact renderNet_keys d s9 g9 htrig k (by simpa using hk)

/-- Claim C3, witness: instantiating the section theorem on the empty
table. -/
theorem c3_report_sections_witness :
    (reportHeader ++ [noDataMsg]).filter isSecHeader =
      (sectionSpecs.filter (fun s => dictContains ([] : Dict) s.trigger)).map SectionSpec.header
    ∧ ∀ s ∈ sectionSpecs, dictContains ([] : Dict) s.trigger = true →
        ∀ k ∈ s.keys, dictContains ([] : Dict) k = true :=
  c3_report_sections [] (reportHeader ++ [noDataMsg]) rfl

/-- Claim C4, counterexample: the claim says that when a line matches a
pattern's substring but the numeric group fails to parse, the key is
omitted with no error and other metrics are unaffected.  But when the
regex itself matches and the capture is not a valid float — here
"Write Speed: 1.2.3 MB/s", whose `[\d.]+` group captures "1.2.3" —
`float()` raises `ValueError` and the whole extraction aborts, losing the
perfectly good "Read Speed" line as well. -/
theorem c4_bad_float_aborts :
    parse_file_io_output "Write Speed: 1.2.3 MB/s\nRead Speed: 2.0 MB/s" =
      .error .valueError := rfl

/-- Claim C4, amended: for every extractor (any rule list), a line on
which no arm fires, or on which an arm fires but its regex does not match
(e.g. a non-numeric token such as "NaN", which `[\d.]+` cannot capture),
is ignored: extraction over the remaining lines is exactly as if the line
were absent, with no error.  But if the regex matches and the captured
group is not a valid float, the extractor raises `ValueError` at that
line, aborting the extraction. -/
theorem c4_neutral_line_ignored :
    (∀ (rules : List Rule) (A B : List String) (l : String), lineNeutralB rules l = true →
      lineParseL rules (A ++ l :: B) = lineParseL rules (A ++ B))
    ∧ ∀ (rules : List Rule) (A B : List String) (l : String) (r : Rule) (g : String) (s : Dict),
        firstMatching rules l = some r → rsearch r.pat l = some [g] → r.isInt = false →
        pyFloat g = none → lineParseL rules A = .ok s →
        lineParseL rules (A ++ l :: B) = .error .valueError := by
  constructor
  · intro rules A B l hl
    unfold lineParseL
    rw [foldE_append, foldE_append]
    cases hA : foldE (ruleStep rules) [] A with
    | error e => simp
    | ok m => simp [foldE, ruleStep_neutral rules l hl m]
  · intro rules A B l r g s hf hr hi hp hA
    unfold lineParseL at hA ⊢
    rw [foldE_append, hA]
    simp [foldE, ruleStep_float_error rules l r g hf hr hi hp s]

/-- Claim C4, witness: a "NaN" write-speed line leaves the file-I/O
extraction unchanged, and a "1.2.3" write-speed line aborts it. -/
theorem c4_neutral_line_ignored_witness :
    lineParseL rulesFio ["Read Speed: 2.0 MB/s", "Write Speed: NaN MB/s"]
      = lineParseL rulesFio ["Read Speed: 2.0 MB/s"]
    ∧ lineParseL rulesFio ["Write Speed: 1.2.3 MB/s", "Read Speed: 2.0 MB/s"]
      = .error .valueError := by
  constructor
  · exact c4_neutral_line_ignored.1 rulesFio ["Read Speed: 2.0 MB/s"] []
      "Write Speed: NaN MB/s" rfl
  · exact c4_neutral_line_ignored.2 rulesFio [] ["Read Speed: 2.0 MB/s"]
      "Write Speed: 1.2.3 MB/s" _ "1.2.3" [] rfl rfl rfl rfl rfl

/-- Claim C5, counterexample: the claim says the runner returns a failure
result carrying a "not found" message in both run modes.  In background
mode the not-found return is the bare `(None, None, None)` triple — it
carries no message at all (the message is only printed). -/
theorem c5_background_result_empty :
    run_script_and_capture_output_bg SCRIPT_NET_SERVER .notFound = (none, none, none) := rfl

/-- Claim C5, amended: on a missing executable no mode throws; blocking
mode returns a failure triple whose error text contains "not found", the
orchestrator skips extraction and continues, and the network section with
a missing server script skips the client and proceeds with no server
process; background mode, however, returns `(None, None, None)` with no
message in the result. -/
theorem c5_not_found_handling :
    (∀ script : String,
      (run_script_and_capture_output script .notFound).1 = false ∧
      containsSub "not found" (run_script_and_capture_output script .notFound).2.2 = true)
    ∧ (∀ script : String, run_script_and_capture_output_bg script .notFound = (none, none, none))
    ∧ (∀ (script : String) (extractor : String → Except PyExn Dict) (acc : Dict),
        probePhase script extractor .notFound acc = .ok acc)
    ∧ ∀ env : Env, env.oServer = .notFound →
        tryBlock env = (blockingPhases env, .noServer) := by
  refine ⟨?_, fun _ => rfl, fun _ _ _ => rfl, ?_⟩
  · intro script
    refine ⟨rfl, ?_⟩
    show containsSub "not found"
      ((("Script " ++ sqStr) ++ script ++ sqStr) ++ " not found.") = true
    exact containsSub_append_right _ _ _ rfl
  · intro env he
    cases hb : blockingPhases env with
    | error e => simp [tryBlock, hb]
    | ok t8 => simp [tryBlock, hb, he, run_script_and_capture_output_bg]

/-- Claim C5, witness: the amended statement at the CPU probe and an
environment with a missing server script. -/
theorem c5_not_found_handling_witness :
    containsSub "not found" (run_script_and_capture_output SCRIPT_NET_SERVER .notFound).2.2 = true
    ∧ probePhase SCRIPT_CPU_TEST parse_cpu_output .notFound [] = .ok []
    ∧ tryBlock ⟨.notFound, .notFound, .notFound, .notFound, .notFound, .notFound, .notFound,
          .notFound, .notFound, .notFound⟩ =
        (blockingPhases ⟨.notFound, .notFound, .notFound, .notFound, .notFound, .notFound,
          .notFound, .notFound, .notFound, .notFound⟩, .noServer) :=
  ⟨(c5_not_found_handling.1 SCRIPT_NET_SERVER).2,
   c5_not_found_handling.2.2.1 SCRIPT_CPU_TEST parse_cpu_output [],
   c5_not_found_handling.2.2.2 _ rfl⟩

/-- Claim C6: in blocking mode a probe that ran to exit yields exactly
`(exit code == 0, stdout, stderr)` — success iff the exit code is zero —
and a failed probe never aborts the orchestrator: its phase leaves the
table unchanged and the run continues. -/
theorem c6_blocking_triple : ∀ (script : String) (code : Int) (out err : String),
    run_script_and_capture_output script (.ran code out err) = ((code == 0), out, err)
    ∧ ∀ (extractor : String → Except PyExn Dict) (acc : Dict), code ≠ 0 →
        probePhase script extractor (.ran code out err) acc = .ok acc := by
  intro script code out err
  refine ⟨rfl, ?_⟩
  intro extractor acc hc
  have hb : (code == 0) = false := beq_eq_false_iff_ne.mpr hc
  simp [probePhase, run_script_and_capture_output, hb]

/-- Claim C6, witness: a probe exiting 2 yields a failure triple and its
phase is skipped. -/
theorem c6_blocking_triple_witness :
    run_script_and_capture_output SCRIPT_CPU_TEST (.ran 2 "abc" "err") = (false, "abc", "err")
    ∧ probePhase SCRIPT_CPU_TEST parse_cpu_output (.ran 2 "abc" "err") [] = .ok [] := by
  have h := c6_blocking_triple SCRIPT_CPU_TEST 2 "abc" "err"
  exact ⟨h.1, h.2 parse_cpu_output [] (by decide)⟩

/-- Claim C7: on stdout whose lines are one primes line, one time line
(in either surrounding context of lines on which the CPU extractor's step
is a no-op), the CPU extractor yields exactly the two entries
`CPU Primes Found` and `CPU Time Taken (s)` and nothing else. -/
theorem c7_cpu_extraction (A B C : List String) (lp lt n t : String) (q : ℚ)
    (hA : ∀ l ∈ A, lineNeutralB rulesCpu l = true)
    (hB : ∀ l ∈ B, lineNeutralB rulesCpu l = true)
    (hC : ∀ l ∈ C, lineNeutralB rulesCpu l = true)
    (hp1 : containsSub "Total Primes Found:" lp = true)
    (hp2 : rsearch [.lit "Total Primes Found: ", .grpDigits] lp = some [n])
    (ht0 : containsSub "Total Primes Found:" lt = false)
    (ht1 : containsSub "Time Taken:" lt = true)
    (ht2 : rsearch [.lit "Time Taken: ", .grpNum, .lit " seconds"] lt = some [t])
    (ht3 : pyFloat t = some q) :
    parse_cpu_lines (A ++ lp :: (B ++ lt :: C)) =
      .ok [("CPU Primes Found", .int (pyInt n)), ("CPU Time Taken (s)", .float q)] := by
  have hAn : ∀ l ∈ A, ∀ st, ruleStep rulesCpu st l = .ok st :=
    fun l hl st => ruleStep_neutral rulesCpu l (hA l hl) st
  have hBn : ∀ l ∈ B, ∀ st, ruleStep rulesCpu st l = .ok st :=
    fun l hl st => ruleStep_neutral rulesCpu l (hB l hl) st
  have hCn : ∀ l ∈ C, ∀ st, ruleStep rulesCpu st l = .ok st :=
    fun l hl st => ruleStep_neutral rulesCpu l (hC l hl) st
  have hfm1 : firstMatching rulesCpu lp =
      some ⟨["Total Primes Found:"], [.lit "Total Primes Found: ", .grpDigits],
        "CPU Primes Found", true⟩ := by
    simp [firstMatching, rulesCpu, hp1]
  have hfm2 : firstMatching rulesCpu lt =
      some ⟨["Time Taken:"], [.lit "Time Taken: ", .grpNum, .lit " seconds"],
        "CPU Time Taken (s)", false⟩ := by
    simp [firstMatching, rulesCpu, ht0, ht1]
  have hs1 := ruleStep_set_int rulesCpu lp _ n hfm1 hp2 rfl []
  have hs2 := ruleStep_set_float rulesCpu lt _ t q hfm2 ht2 rfl ht3
      [("CPU Primes Found", .int (pyInt n))]
  unfold parse_cpu_lines lineParseL
  rw [foldE_append, foldE_neutral _ A [] hAn]
  simp only [foldE, hs1]
  rw [show dictSet [] "CPU Primes Found" (.int (pyInt n))
      = [("CPU Primes Found", MValue.int (pyInt n))] from rfl]
  rw [foldE_append, foldE_neutral _ B _ hBn]
  simp only [foldE, hs2]
  rw [show dictSet [("CPU Primes Found", MValue.int (pyInt n))] "CPU Time Taken (s)"
        (.float q)
      = [("CPU Primes Found", MValue.int (pyInt n)), ("CPU Time Taken (s)", MValue.float q)]
      from rfl]
  exact foldE_neutral _ C _ hCn

/-- Claim C7, witness: concrete primes and time lines. -/
theorem c7_cpu_extraction_witness :
    parse_cpu_lines ["Total Primes Found: 1234", "Time Taken: 9.87 seconds"]
      = .ok [("CPU Primes Found", .int 1234), ("CPU Time Taken (s)", .float (mkRat 987 100))] :=
  c7_cpu_extraction [] [] [] "Total Primes Found: 1234" "Time Taken: 9.87 seconds"
    "1234" "9.87" (mkRat 987 100)
    (fun l hl => absurd hl (List.not_mem_nil l))
    (fun l hl => absurd hl (List.not_mem_nil l))
    (fun l hl => absurd hl (List.not_mem_nil l))
    rfl rfl rfl rfl rfl rfl

/-- Claim C8: on an empty Metrics Table the renderer prints exactly the
header frame plus the no-data line, no section headers, and not even the
closing frame (the source returns early). -/
theorem c8_empty_report :
    renderReport [] = .ok (reportHeader ++ [noDataMsg])
    ∧ (reportHeader ++ [noDataMsg]).filter isSecHeader = ([] : List String) := ⟨rfl, rfl⟩

/-- Claim C9: each extractor only ever writes keys from its own
namespaced key set, the nine key sets are pairwise disjoint, and merging
a dict into the Metrics Table never changes the value of any key outside
the merged dict's keys — so across one run each table key is written by
at most one probe and later merges never overwrite earlier values. -/
theorem c9_namespaced_keys :
    (∀ out d, parse_2d_output out = .ok d → ∀ k ∈ dkeys d, k ∈ rules2d.map Rule.key)
    ∧ (∀ out d, parse_3d_output out = .ok d → ∀ k ∈ dkeys d, k ∈ rules3d.map Rule.key)
    ∧ (∀ out d, parse_mcseedgen_output out = .ok d →
        ∀ k ∈ dkeys d, k ∈ ["MC Seeds Generated", "MC Generation Time (s)"])
    ∧ (∀ out d, parse_cpu_output out = .ok d → ∀ k ∈ dkeys d, k ∈ rulesCpu.map Rule.key)
    ∧ (∀ out d, parse_memory_output out = .ok d → ∀ k ∈ dkeys d, k ∈ rulesMemory.map Rule.key)
    ∧ (∀ out d, parse_file_io_output out = .ok d → ∀ k ∈ dkeys d, k ∈ rulesFio.map Rule.key)
    ∧ (∀ out d, parse_simulated_gpu_output out = .ok d →
        ∀ k ∈ dkeys d, k ∈ rulesSgpu.map Rule.key)
    ∧ (∀ out d, parse_real_gpu_output out = .ok d → ∀ k ∈ dkeys d, k ∈ rulesRgpu.map Rule.key)
    ∧ (∀ out d, parse_net_client_output out = .ok d → ∀ k ∈ dkeys d, k ∈ rulesNet.map Rule.key)
    ∧ List.Pairwise (fun ks1 ks2 => ∀ k ∈ ks1, ¬ k ∈ ks2) probeKeysets
    ∧ ∀ (tbl m : Dict) (k : String), ¬ k ∈ dkeys m →
        dlookup (dictUpdate tbl m) k = dlookup tbl k := by
  refine ⟨?_, ?_, ?_, ?_, ?_, ?_, ?_, ?_, ?_, ?_, dlookup_dictUpdate_not_mem⟩
  case _ =>
    intro out d h k hk
    rcases foldE_keys rules2d (pySplitLines out) [] d h k hk with h1 | h1
    · simp [dkeys] at h1
    · exact h1
  case _ =>
    intro out d h k hk
    rcases foldE_keys rules3d (pySplitLines out) [] d h k hk with h1 | h1
    · simp [dkeys] at h1
    · exact h1
  case _ =>
    intro out d h k hk
    unfold parse_mcseedgen_output at h
    cases hr : rsearch mcPat out with
    | none =>
      simp [hr] at h
      subst h
      simp [dkeys] at hk
    | some gs =>
      match gs with
      | [] =>
        simp [hr] at h
        subst h
        simp [dkeys] at hk
      | [x] =>
        simp [hr] at h
        subst h
        simp [dkeys] at hk
      | [nn, tt] =>
        cases hp : pyFloat tt with
        | none => simp [hr, hp] at h
        | some qv =>
          simp [hr, hp] at h
          subst h
          simp [dkeys] at hk
          rcases hk with rfl | rfl
          · simp
          · simp
      | nn :: tt :: x :: xs =>
        simp [hr] at h
        subst h
        simp [dkeys] at hk
  case _ =>
    intro out d h k hk
    rcases foldE_keys rulesCpu (pySplitLines out) [] d h k hk with h1 | h1
    · simp [dkeys] at h1
    · exact h1
  case _ =>
    intro out d h k hk
    rcases foldE_keys rulesMemory (pySplitLines out) [] d h k hk with h1 | h1
    · simp [dkeys] at h1
    · exact h1
  case _ =>
    intro out d h k hk
    rcases foldE_keys rulesFio (pySplitLines out) [] d h k hk with h1 | h1
    · simp [dkeys] at h1
    · exact h1
  case _ =>
    intro out d h k hk
    rcases foldE_keys rulesSgpu (pySplitLines out) [] d h k hk with h1 | h1
    · simp [dkeys] at h1
    · exact h1
  case _ =>
    intro out d h k hk
    rcases foldE_keys rulesRgpu (pySplitLines out) [] d h k hk with h1 | h1
    · simp [dkeys] at h1
    · exact h1
  case _ =>
    intro out d h k hk
    rcases foldE_keys rulesNet (pySplitLines out) [] d h k hk with h1 | h1
    · simp [dkeys] at h1
    · exact h1
  case _ => decide

/-- Claim C9, witness: a 2D key lands in the 2D key set, and merging a
network metric does not disturb an earlier CPU entry. -/
theorem c9_namespaced_keys_witness :
    ("2D Total Sprites" ∈ rules2d.map Rule.key)
    ∧ dlookup (dictUpdate [("CPU Primes Found", .int 1)]
        [("Net Send Speed (MB/s)", .float (mkRat 2 1))]) "CPU Primes Found" =
        some (.int 1) :=
  ⟨c9_namespaced_keys.1 "Total Sprites Generated: 7" [("2D Total Sprites", .int 7)] rfl
      "2D Total Sprites" (by simp [dkeys]),
   (c9_namespaced_keys.2.2.2.2.2.2.2.2.2.2 [("CPU Primes Found", .int 1)]
      [("Net Send Speed (MB/s)", .float (mkRat 2 1))] "CPU Primes Found"
      (by simp [dkeys])).trans rfl⟩

/-- Claim C10, counterexample: the claim says the seed-gen extractor
always returns both keys or the empty mapping.  When the regex matches
but the `[\d.]+` time capture is not a valid float — "1.2.3" here —
`float()` raises `ValueError` instead of returning anything. -/
theorem c10_bad_float_raises :
    parse_mcseedgen_output "Generated 5 seeds in 1.2.3 seconds." = .error .valueError := rfl

/-- Claim C10, amended: whenever the seed-gen extractor returns (rather
than raising on a bad float capture), its result is the empty mapping or
exactly the two keys captured from one match — never exactly one of the
two. -/
theorem c10_both_or_empty : ∀ (out : String) (d : Dict), parse_mcseedgen_output out = .ok d →
    d = [] ∨ ∃ (nv : Int) (q : ℚ),
      d = [("MC Seeds Generated", .int nv), ("MC Generation Time (s)", .float q)] := by
  intro out d h
  unfold parse_mcseedgen_output at h
  cases hr : rsearch mcPat out with
  | none =>
    simp [hr] at h
    left
    exact h
  | some gs =>
    match gs with
    | [] =>
      simp [hr] at h
      left
      exact h
    | [x] =>
      simp [hr] at h
      left
      exact h
    | [nn, tt] =>
      cases hp : pyFloat tt with
      | none => simp [hr, hp] at h
      | some qv =>
        simp [hr, hp] at h
        right
        exact ⟨pyInt nn, qv, h.symm⟩
    | nn :: tt :: x :: xs =>
      simp [hr] at h
      left
      exact h

/-- Claim C10, witness: a well-formed seed-gen line yields both keys. -/
theorem c10_both_or_empty_witness :
    ([("MC Seeds Generated", MValue.int 5), ("MC Generation Time (s)", MValue.float (mkRat 5 2))]
        : Dict) = []
    ∨ ∃ (nv : Int) (q : ℚ),
        ([("MC Seeds Generated", MValue.int 5),
          ("MC Generation Time (s)", MValue.float (mkRat 5 2))] : Dict) =
          [("MC Seeds Generated", .int nv), ("MC Generation Time (s)", .float q)] :=
  c10_both_or_empty "Generated 5 seeds in 2.5 seconds." _ rfl
